import Mathlib

/-!
Verification of the `kivy/core/camera` lifecycle controller.

This file shallowly embeds the camera lifecycle state machine of
`kivy/core/camera/__init__.py` (class `CameraBase`, with `configure`
modelled after `SimpleCameraBase.configure`) and the bounded-retry frame
reading logic of `kivy/core/camera/camera_opencv3.py`
(`CameraOpenCV._read_frame`), and proves properties of the lifecycle
methods `acquire`, `release`, `prepare`, `start`, `stop`, of the periodic
tick `update`, and of the property setters.

Backends are modelled as oracles: for the `n`-th invocation of each
device-facing operation the oracle says whether the call succeeds
(`false`/`none` models a raised exception) and what it returns.  A raised
Python exception that escapes a method is modelled by an `Option` result
being `none`; a `try`/`except` block in the source becomes a case split on
the inner call's result.
-/

namespace KivyCam

/-- Default camera index (`DEFAULT_INDEX` in `kivy/core/camera/__init__.py`). -/
def DEFAULT_INDEX : Int := 0

/-- Default requested resolution (`DEFAULT_RESOLUTION`). -/
def DEFAULT_RESOLUTION : Nat × Nat := (640, 480)

/-- Fallback frame rate used by the `fps` setter (`FALLBACK_FPS`). -/
def FALLBACK_FPS : ℚ := 30

/-- Capacity of the rolling delta window (`CameraBase.real_fps_sample_size`). -/
def real_fps_sample_size : Nat := 8

/-- A frame as returned by the setup read: a nested sequence of rows. -/
abbrev Frame := List (List Nat)

/-- Resolution `(width, height)` of a frame (`CameraBase.get_frame_resolution`):
`height = len(frame)`; `width = len(frame[0]) if height else 0`. -/
def get_frame_resolution (frame : Frame) : Nat × Nat :=
  let height := frame.length
  let width := if height = 0 then 0 else frame.headI.length
  (width, height)

/-- Append to a `deque` with a `maxlen` bound: oldest entries evicted first. -/
def dequeAppend (d : List ℚ) (x : ℚ) (maxlen : Nat) : List ℚ :=
  let d2 := d ++ [x]
  d2.drop (d2.length - maxlen)

/-- Oracle describing an arbitrary device backend.  For the `n`-th call of
each device-facing operation it gives the outcome: `openOk`/`closeOk`/`cfgOk`
are `false` when that call raises an exception, `devFps` is the frame rate
the device reports during configuration, and `readF` is the frame returned
by the `n`-th `read()` (`none` when the read raises). -/
structure Backend where
  openOk : Nat → Bool
  closeOk : Nat → Bool
  cfgOk : Nat → Bool
  devFps : Nat → ℚ
  readF : Nat → Option Frame

/-- State of a `CameraBase` controller, together with instrumentation
counting backend calls and dispatched notifications.  The underscored
fields mirror the private attributes set by `CameraBase.__init__`;
`scheduled`/`schedInterval` model the `Clock` registration made by
`schedule`, and the `*Calls`/`*Count` fields count backend invocations and
`on_load`/`on_texture` dispatches. -/
structure Camera where
  backend : Backend
  _index : Int
  _resolution : Nat × Nat
  _texture : Option (Nat × Nat)
  _acquired : Bool
  _ready : Bool
  _started : Bool
  _fps : ℚ
  _deltas : List ℚ
  scheduled : Bool
  schedInterval : Option ℚ
  openCalls : Nat
  closeCalls : Nat
  configureCalls : Nat
  readCalls : Nat
  onLoadCount : Nat
  onTextureCount : Nat

/-- Controller as built by `CameraBase.__init__` (before any auto-`start`):
flags cleared, `_fps = 0`, empty delta window, nothing scheduled. -/
def mkCamera (b : Backend) (index : Int) (resolution : Nat × Nat) : Camera :=
  { backend := b, _index := index, _resolution := resolution, _texture := none,
    _acquired := false, _ready := false, _started := false, _fps := 0,
    _deltas := [], scheduled := false, schedInterval := none,
    openCalls := 0, closeCalls := 0, configureCalls := 0, readCalls := 0,
    onLoadCount := 0, onTextureCount := 0 }

/-- Backend `open()` call: bumps the call counter and reports whether this
call succeeded (`false` models a raised exception). -/
def dev_open (c : Camera) : Camera × Bool :=
  ({ c with openCalls := c.openCalls + 1 }, c.backend.openOk c.openCalls)

/-- Backend `close()` call. -/
def dev_close (c : Camera) : Camera × Bool :=
  ({ c with closeCalls := c.closeCalls + 1 }, c.backend.closeOk c.closeCalls)

/-- Backend `read()` call: `none` models a raised exception. -/
def dev_read (c : Camera) : Camera × Option Frame :=
  ({ c with readCalls := c.readCalls + 1 }, c.backend.readF c.readCalls)

/-- `CameraBase.unschedule`: `Clock.unschedule(self.update)` followed by
`self.deltas.clear()`. -/
def unschedule (c : Camera) : Camera :=
  { c with scheduled := false, schedInterval := none, _deltas := [] }

/-- `CameraBase.interval`: `1 / float(self.fps)`; raises `ZeroDivisionError`
(modelled as `none`) when the stored fps is `0`. -/
def interval (c : Camera) : Option ℚ :=
  if c._fps = 0 then none else some (1 / c._fps)

/-- `CameraBase.schedule`: unschedule, then
`Clock.schedule_interval(self.update, self.interval)`.  The `Bool` is
`false` when evaluating `self.interval` raised, in which case nothing is
scheduled and the exception propagates. -/
def schedule (c : Camera) : Camera × Bool :=
  let c1 := unschedule c
  match interval c1 with
  | none => (c1, false)
  | some i => ({ c1 with scheduled := true, schedInterval := some i }, true)

/-- The `fps` property setter: a non-positive value is replaced by
`FALLBACK_FPS` (with a log message); when the resulting value differs from
the stored one it is stored and, if started, the updates are rescheduled.
The `Bool` is `false` when a raised exception escapes the setter. -/
def fps_set (c : Camera) (v : ℚ) : Camera × Bool :=
  let value := if v ≤ 0 then FALLBACK_FPS else v
  if value = c._fps then (c, true)
  else
    let c1 := { c with _fps := value }
    if c1._started then schedule c1 else (c1, true)

/-- `CameraBase.stop`: unschedule the frame updates and clear `_started`.
Returns `some ()` since nothing in its body can raise. -/
def stop (c : Camera) : Camera × Option Unit :=
  ({ unschedule c with _started := false }, some ())

/-- `CameraBase.release`: stop first if started, then `try: self.close()`;
only on a successful close is `_acquired` cleared (the `else` branch); the
`finally` returns `not self.acquired`, so no exception escapes. -/
def release (c : Camera) : Camera × Option Bool :=
  let c1 := if c._started then (stop c).1 else c
  let r := dev_close c1
  let c2 := if r.2 then { r.1 with _acquired := false } else r.1
  (c2, some (!c2._acquired))

/-- `CameraBase.acquire`: release first if already acquired, then
`try: self.open()`; on success `_acquired := True`, `_ready := False`; the
`finally` returns `self.acquired`, so no exception escapes. -/
def acquire (c : Camera) : Camera × Option Bool :=
  let c1 := if c._acquired then (release c).1 else c
  let r := dev_open c1
  let c2 := if r.2 then { r.1 with _acquired := true, _ready := false } else r.1
  (c2, some c2._acquired)

/-- The abstract `configure()` as implemented by `SimpleCameraBase.configure`:
`self.set_device_resolution(*self.resolution)` then
`self.fps = self.get_device_fps()`.  The device-facing part may raise
(`cfgOk` false); on success the device-reported fps is stored through the
`fps` setter.  The `Bool` is `false` when the call raised. -/
def configure (c : Camera) : Camera × Bool :=
  let n := c.configureCalls
  let c1 := { c with configureCalls := n + 1 }
  if c1.backend.cfgOk n then fps_set c1 (c1.backend.devFps n)
  else (c1, false)

/-- The opening phase of `CameraBase.prepare`: `self._ready = False`
followed by `if not self.acquired: self.acquire()`. -/
def prepare_phase (c : Camera) : Camera :=
  let c1 := { c with _ready := false }
  if c1._acquired then c1 else (acquire c1).1

/-- `CameraBase.prepare`: clear `_ready`; acquire first when not acquired
(the `prepare_phase`); then
`try: self.configure(); self._resolution = get_frame_resolution(self.read())`
with `_ready := True` only when both succeed; the `finally` dispatches
`on_load` unconditionally and returns `self.ready`, so no exception
escapes. -/
def prepare (c : Camera) : Camera × Option Bool :=
  let c2 := prepare_phase c
  let r := configure c2
  let c3 :=
    if r.2 then
      let rd := dev_read r.1
      match rd.2 with
      | some f => { rd.1 with _resolution := get_frame_resolution f, _ready := true }
      | none => rd.1
    else r.1
  let c4 := { c3 with onLoadCount := c3.onLoadCount + 1 }
  (c4, some c4._ready)

/-- `CameraBase.start`: prepare first when not ready, then `self.schedule()`
and `self._started = True`.  Nothing here catches exceptions: when
`schedule` raises (fps still `0`), the exception escapes `start`
(result `none`) and `_started` is never set. -/
def start (c : Camera) : Camera × Option Unit :=
  let c1 := if c._ready then c else (prepare c).1
  let r := schedule c1
  if r.2 then ({ r.1 with _started := true }, some ()) else (r.1, none)

/-- The `texture` property getter: creates the texture at the current
resolution and dispatches `on_load` the first time it is accessed. -/
def texture_get (c : Camera) : Camera × (Nat × Nat) :=
  match c._texture with
  | some t => (c, t)
  | none =>
    ({ c with
        _texture := some c._resolution,
        onLoadCount := c.onLoadCount + 1 }, c._resolution)

/-- `CameraBase.update` (the scheduled tick): early-return when not started;
`try: buffer = self.read().tostring()` — on success the buffer is blitted to
the texture (whose getter may create it) and `on_texture` is dispatched, on
failure the exception is only logged; the `finally` appends the delta to
the window in every case. -/
def update (c : Camera) (delta : ℚ) : Camera :=
  if c._started then
    let rd := dev_read c
    let c1 :=
      match rd.2 with
      | some _ =>
        let t := texture_get rd.1
        { t.1 with onTextureCount := t.1.onTextureCount + 1 }
      | none => rd.1
    { c1 with _deltas := dequeAppend c1._deltas delta real_fps_sample_size }
  else c

/-!
The bounded-retry read logic of `camera_opencv3.py` (`CameraOpenCV`).
-/

/-- Initial retry budget (`CameraOpenCV.initial_retry`). -/
def initial_retry : Nat := 60

/-- The slice of `CameraOpenCV` state that the retry logic touches:
`self._retry`, the started flag, whether the capture device is open, and a
count of read attempts. -/
structure CVState where
  retry : Nat
  cv_started : Bool
  cv_acquired : Bool
  cv_reads : Nat

/-- `CameraOpenCV.stop`: unschedule the updates and clear the started flag;
the capture device stays open. -/
def cv_stop (s : CVState) : CVState := { s with cv_started := false }

/-- The `finally` clause of `CameraOpenCV._read_frame` for a read whose
outcome is `ok`: on failure, `if self._retry:` decrement it, `else` log and
`self.stop()`.  A successful read leaves `_retry` untouched. -/
def read_frame (ok : Bool) (s : CVState) : CVState :=
  if ok then s
  else if s.retry ≠ 0 then { s with retry := s.retry - 1 }
  else cv_stop s

/-- One scheduled tick of the OpenCV camera: when stopped, the update
routine returns without reading; when started, one read is attempted and
its outcome handled by `read_frame`. -/
def cv_tick (ok : Bool) (s : CVState) : CVState :=
  if s.cv_started then read_frame ok { s with cv_reads := s.cv_reads + 1 } else s

/-- A freshly started OpenCV camera: full retry budget, started, device
open, no reads yet. -/
def cvInit : CVState :=
  { retry := initial_retry, cv_started := true, cv_acquired := true, cv_reads := 0 }

/-!
Concrete backends used as inputs for counterexamples and witnesses.
-/

/-- A concrete 5×3 frame (3 rows of 5 pixels). -/
def okFrame : Frame := [[0, 0, 0, 0, 0], [0, 0, 0, 0, 0], [0, 0, 0, 0, 0]]

/-- A dead device: every `open()` and every `configure()` raises. -/
def bDead : Backend :=
  ⟨fun _ => false, fun _ => true, fun _ => false, fun _ => 0, fun _ => none⟩

/-- A device that opens fine but whose `configure()` always raises. -/
def bCfgFail : Backend :=
  ⟨fun _ => true, fun _ => true, fun _ => false, fun _ => 0, fun _ => none⟩

/-- A device whose `close()` always raises; everything else succeeds. -/
def bCloseFail : Backend :=
  ⟨fun _ => true, fun _ => false, fun _ => true, fun _ => 30, fun _ => some okFrame⟩

/-- A fully working device reporting 30 fps and returning `okFrame`. -/
def bOk : Backend :=
  ⟨fun _ => true, fun _ => true, fun _ => true, fun _ => 30, fun _ => some okFrame⟩

/-- A device whose first `configure()` succeeds and later ones raise. -/
def bSecondCfgFail : Backend :=
  ⟨fun _ => true, fun _ => true, fun n => n == 0, fun _ => 30, fun _ => some okFrame⟩

/-- A device that opens and configures but whose every `read()` raises. -/
def bReadFail : Backend :=
  ⟨fun _ => true, fun _ => true, fun _ => true, fun _ => 30, fun _ => none⟩

/-!
Helper lemmas: field preservation and characterizations of the inner
operations, shared by the claim theorems below.
-/

/-- Fields of the controller that `stop` does not touch. -/
theorem stop_fields (c : Camera) :
    ((stop c).1).backend = c.backend ∧ ((stop c).1).configureCalls = c.configureCalls ∧
    ((stop c).1).readCalls = c.readCalls ∧ ((stop c).1).onLoadCount = c.onLoadCount ∧
    ((stop c).1)._acquired = c._acquired ∧ ((stop c).1)._fps = c._fps ∧
    ((stop c).1).openCalls = c.openCalls ∧ ((stop c).1).closeCalls = c.closeCalls :=
  ⟨rfl, rfl, rfl, rfl, rfl, rfl, rfl, rfl⟩

/-- Fields of the controller that `release` does not touch. -/
theorem release_fields (c : Camera) :
    ((release c).1).backend = c.backend ∧
    ((release c).1).configureCalls = c.configureCalls ∧
    ((release c).1).readCalls = c.readCalls ∧
    ((release c).1).onLoadCount = c.onLoadCount ∧
    ((release c).1).openCalls = c.openCalls ∧
    ((release c).1)._fps = c._fps ∧
    ((release c).1).onTextureCount = c.onTextureCount ∧
    ((release c).1)._ready = c._ready := by
  simp only [release, stop, unschedule, dev_close]
  split <;> split <;> simp

/-- Fields of the controller that `acquire` does not touch. -/
theorem acquire_fields (c : Camera) :
    ((acquire c).1).backend = c.backend ∧
    ((acquire c).1).configureCalls = c.configureCalls ∧
    ((acquire c).1).readCalls = c.readCalls ∧
    ((acquire c).1).onLoadCount = c.onLoadCount ∧
    ((acquire c).1)._fps = c._fps ∧
    ((acquire c).1).onTextureCount = c.onTextureCount := by
  obtain ⟨h1, h2, h3, h4, h5, h6, h7, h8⟩ := release_fields c
  simp only [acquire, dev_open]
  split <;> split <;> simp [h1, h2, h3, h4, h5, h6, h7]

/-- Acquiring a controller that is not ready leaves it not ready (a
successful `open()` clears `_ready` and a failed one leaves it alone). -/
theorem acquire_ready (c : Camera) (h : c._ready = false) :
    (acquire c).1._ready = false := by
  obtain ⟨r1, r2, r3, r4, r5, r6, r7, r8⟩ := release_fields c
  simp only [acquire, dev_open]
  split <;> split <;> simp [h, r8]

/-- Acquiring from the released state against a backend whose `open()`
succeeds: the controller becomes acquired and not ready, with one more
`open()` call recorded. -/
theorem acquire_from_released (c : Camera) (h : c._acquired = false)
    (hopen : c.backend.openOk c.openCalls = true) :
    (acquire c).1 =
      { c with _acquired := true, _ready := false, openCalls := c.openCalls + 1 } := by
  simp [acquire, dev_open, h, hopen]

/-- Fields of the controller that the opening phase of `prepare` does not
touch, and the fact that it always clears `_ready`. -/
theorem prepare_phase_fields (c : Camera) :
    (prepare_phase c).backend = c.backend ∧
    (prepare_phase c).configureCalls = c.configureCalls ∧
    (prepare_phase c).readCalls = c.readCalls ∧
    (prepare_phase c).onLoadCount = c.onLoadCount ∧
    (prepare_phase c)._ready = false := by
  obtain ⟨a1, a2, a3, a4, a5, a6⟩ := acquire_fields { c with _ready := false }
  have ha := acquire_ready { c with _ready := false } rfl
  simp only [prepare_phase]
  split
  · simp
  · simp [a1, a2, a3, a4, ha]

/-- The opening phase of `prepare` on a released controller whose backend
`open()` succeeds: the controller becomes acquired and not ready, with one
more `open()` call recorded. -/
theorem prepare_phase_from_released (c : Camera) (hacq : c._acquired = false)
    (hopen : c.backend.openOk c.openCalls = true) :
    prepare_phase c =
      { c with _ready := false, _acquired := true, openCalls := c.openCalls + 1 } := by
  simp only [prepare_phase]
  split
  · next h =>
    rw [show ({ c with _ready := false } : Camera)._acquired = c._acquired from rfl,
      hacq] at h
    exact absurd h (by simp)
  · have := acquire_from_released { c with _ready := false }
      (by simpa using hacq) (by simpa using hopen)
    simpa using this

/-- The `fps` setter never lets an exception escape, always stores the
fallback-corrected value, and touches no other controller field apart from
the scheduling ones. -/
theorem fps_set_spec (c : Camera) (v : ℚ) :
    (fps_set c v).2 = true ∧
    (fps_set c v).1._fps = (if v ≤ 0 then FALLBACK_FPS else v) ∧
    (fps_set c v).1.backend = c.backend ∧
    (fps_set c v).1.configureCalls = c.configureCalls ∧
    (fps_set c v).1.readCalls = c.readCalls ∧
    (fps_set c v).1.openCalls = c.openCalls ∧
    (fps_set c v).1.closeCalls = c.closeCalls ∧
    (fps_set c v).1.onLoadCount = c.onLoadCount ∧
    (fps_set c v).1._acquired = c._acquired ∧
    (fps_set c v).1._ready = c._ready ∧
    (fps_set c v).1._started = c._started := by
  have hpos : 0 < (if v ≤ 0 then FALLBACK_FPS else v) := by
    by_cases hv : v ≤ 0
    · simp [hv, FALLBACK_FPS]
    · simp [hv]
      exact not_le.mp hv
  simp only [fps_set, schedule, unschedule, interval]
  by_cases heq : (if v ≤ 0 then FALLBACK_FPS else v) = c._fps
  · simp [heq]
  · by_cases hs : c._started <;> simp [heq, hs, ne_of_gt hpos]

/-- Characterization of the modelled `configure`: it bumps the configure
counter, succeeds exactly when the device call does, and preserves the
other controller fields (the fps setter inside cannot raise). -/
theorem configure_spec (c : Camera) :
    ((configure c).2 = true ↔ c.backend.cfgOk c.configureCalls = true) ∧
    (configure c).1.configureCalls = c.configureCalls + 1 ∧
    (configure c).1.backend = c.backend ∧
    (configure c).1.readCalls = c.readCalls ∧
    (configure c).1.onLoadCount = c.onLoadCount ∧
    (configure c).1._acquired = c._acquired ∧
    (configure c).1._ready = c._ready ∧
    (configure c).1._started = c._started := by
  simp only [configure]
  by_cases h : c.backend.cfgOk c.configureCalls = true
  · obtain ⟨f1, f2, f3, f4, f5, f6, f7, f8, f9, f10, f11⟩ :=
      fps_set_spec { c with configureCalls := c.configureCalls + 1 }
        (c.backend.devFps c.configureCalls)
    simp [h, f1, f3, f4, f5, f8, f9, f10, f11] at *
  · simp [h]

/-- The `schedule` routine raises exactly when the stored fps is `0`;
otherwise it marks the update routine as scheduled at `1 / fps`. -/
theorem schedule_spec (c : Camera) :
    ((schedule c).2 = false ↔ c._fps = 0) ∧
    (schedule c).1._fps = c._fps ∧
    (schedule c).1._started = c._started ∧
    (schedule c).1._acquired = c._acquired ∧
    (schedule c).1._ready = c._ready ∧
    (schedule c).1.onLoadCount = c.onLoadCount ∧
    (schedule c).1.readCalls = c.readCalls ∧
    (schedule c).1.scheduled = !decide (c._fps = 0) := by
  simp only [schedule, unschedule, interval]
  by_cases h : c._fps = 0 <;> simp [h]

/-!
Claim C1.
-/

/-- Claim C1 counterexample: against a backend whose `open()` succeeds and
whose `configure()` raises, a released controller that calls `prepare()`
ends with `_acquired = true` — the controller does not roll all the way
back to Released on an exception during configuration, contradicting the
claim. -/
theorem prepare_rollback_to_released_cex :
    (prepare (mkCamera bCfgFail DEFAULT_INDEX DEFAULT_RESOLUTION)).2 = some false ∧
    (prepare (mkCamera bCfgFail DEFAULT_INDEX DEFAULT_RESOLUTION)).1._acquired = true ∧
    (prepare (mkCamera bCfgFail DEFAULT_INDEX DEFAULT_RESOLUTION)).1._ready = false := by
  decide

/-- Claim C1 (amended): when an exception is raised during configuration
inside `prepare()`, the call returns `false` and the controller is not
ready, but it stays half-configured in Acquired: for a released controller
whose backend `open()` succeeds and whose `configure()` raises, `prepare()`
leaves `_acquired = true`. -/
theorem prepare_configure_failure_stays_acquired (c : Camera)
    (hacq : c._acquired = false)
    (hopen : c.backend.openOk c.openCalls = true)
    (hcfg : c.backend.cfgOk c.configureCalls = false) :
    (prepare c).1._acquired = true ∧ (prepare c).1._ready = false ∧
    (prepare c).2 = some false := by
  have hp := prepare_phase_from_released c hacq hopen
  simp [prepare, hp, configure, hcfg]

/-- Claim C1 witness: the amended statement evaluated on a concrete
released controller with a backend whose `configure()` raises. -/
theorem prepare_configure_failure_stays_acquired_witness :
    ((mkCamera bCfgFail DEFAULT_INDEX DEFAULT_RESOLUTION)._acquired = false ∧
     (mkCamera bCfgFail DEFAULT_INDEX DEFAULT_RESOLUTION).backend.openOk
       (mkCamera bCfgFail DEFAULT_INDEX DEFAULT_RESOLUTION).openCalls = true ∧
     (mkCamera bCfgFail DEFAULT_INDEX DEFAULT_RESOLUTION).backend.cfgOk
       (mkCamera bCfgFail DEFAULT_INDEX DEFAULT_RESOLUTION).configureCalls = false) ∧
    ((prepare (mkCamera bCfgFail DEFAULT_INDEX DEFAULT_RESOLUTION)).1._acquired = true ∧
     (prepare (mkCamera bCfgFail DEFAULT_INDEX DEFAULT_RESOLUTION)).1._ready = false ∧
     (prepare (mkCamera bCfgFail DEFAULT_INDEX DEFAULT_RESOLUTION)).2 = some false) :=
  ⟨⟨rfl, rfl, rfl⟩, prepare_configure_failure_stays_acquired _ rfl rfl rfl⟩

/-!
Claim C2.
-/

/-- Claim C2 counterexample: against a backend whose `open()` and
`configure()` always raise, calling `start()` on a freshly constructed
controller lets an exception escape (`ZeroDivisionError` from
`interval = 1 / fps`, the stored fps still being `0`), contradicting the
claim that no exception ever escapes a lifecycle method. -/
theorem start_exception_escapes_cex :
    (start (mkCamera bDead DEFAULT_INDEX DEFAULT_RESOLUTION)).2 = none := by
  decide

/-- Claim C2 (amended): `acquire`, `release`, `prepare` and `stop` never
let an exception escape, for every controller state and backend; `start`,
however, lets an exception escape exactly when the fps in effect when it
schedules (after its `prepare` phase) is `0`. -/
theorem lifecycle_exception_policy (c : Camera) :
    ((acquire c).2).isSome = true ∧
    ((release c).2).isSome = true ∧
    ((prepare c).2).isSome = true ∧
    (stop c).2 = some () ∧
    ((start c).2 = none ↔ (if c._ready then c else (prepare c).1)._fps = 0) := by
  refine ⟨by simp [acquire, dev_open], by simp [release, dev_close],
    by simp [prepare, configure, dev_read], rfl, ?_⟩
  have hs := (schedule_spec (if c._ready then c else (prepare c).1)).1
  simp only [start]
  by_cases h : (schedule (if c._ready then c else (prepare c).1)).2 = true
  · simp [h]
    intro hfps
    rw [← hs] at hfps
    simp [h] at hfps
  · simp [h]
    exact hs.mp (by simpa using h)

/-!
Claim C3.
-/

/-- Claim C3 counterexample: a controller that has successfully acquired a
backend whose `close()` raises still reports `_acquired = true` after
`release()` (which returns `false`) — a close failure does leave the
controller marked acquired, contradicting the claim. -/
theorem release_close_failure_cex :
    ((acquire (mkCamera bCloseFail DEFAULT_INDEX DEFAULT_RESOLUTION)).1)._acquired = true ∧
    (release ((acquire (mkCamera bCloseFail DEFAULT_INDEX DEFAULT_RESOLUTION)).1)).1._acquired
      = true ∧
    (release ((acquire (mkCamera bCloseFail DEFAULT_INDEX DEFAULT_RESOLUTION)).1)).2
      = some false := by
  decide

/-- Claim C3 (amended): `release()` stops the scheduler first when started
and always ends with `_started = false`; it always performs one backend
`close()` call, and `_acquired` is cleared only when that close succeeds —
when `close()` raises, the failure is logged and the controller remains
marked acquired, with `release()` returning `false`. -/
theorem release_spec (c : Camera) :
    (release c).1._started = false ∧
    (release c).1.scheduled = (c.scheduled && !c._started) ∧
    (release c).1.closeCalls = c.closeCalls + 1 ∧
    (release c).1._acquired =
      (if c.backend.closeOk c.closeCalls = true then false else c._acquired) ∧
    (release c).2 =
      some (!(if c.backend.closeOk c.closeCalls = true then false else c._acquired)) := by
  simp only [release, stop, unschedule, dev_close]
  by_cases hs : c._started <;> by_cases hc : c.backend.closeOk c.closeCalls = true <;>
    simp [hs, hc]

/-!
Claim C4.
-/

/-- Claim C4 counterexample: against a backend whose first `configure()`
succeeds and whose second raises, the lifecycle sequence `start(); prepare()`
reaches a state with `_started = true` and `_ready = false` — so
`started = true` does not imply the controller is (still) successfully
configured, contradicting the claimed invariant. -/
theorem started_without_ready_cex :
    (start (mkCamera bSecondCfgFail DEFAULT_INDEX DEFAULT_RESOLUTION)).2 = some () ∧
    (prepare (start (mkCamera bSecondCfgFail DEFAULT_INDEX DEFAULT_RESOLUTION)).1).1._started
      = true ∧
    (prepare (start (mkCamera bSecondCfgFail DEFAULT_INDEX DEFAULT_RESOLUTION)).1).1._ready
      = false := by
  decide

/-- Claim C4 (amended): `started = true` does not imply `ready = true` in
reachable states (a `prepare()` that fails while started leaves
`started ∧ ¬ready`).  What does hold for a fresh controller against a
backend whose `open()` and `configure()` always fail: `start()` leaves it
neither acquired, ready, started nor scheduled, with no read attempted and
no `on_texture` notification — but the call lets a `ZeroDivisionError`
escape and `prepare` still dispatches one `on_load` notification. -/
theorem start_dead_backend_spec (b : Backend) (i : Int) (res : Nat × Nat)
    (hopen : ∀ n, b.openOk n = false)
    (hcfg : ∀ n, b.cfgOk n = false) :
    (start (mkCamera b i res)).2 = none ∧
    (start (mkCamera b i res)).1._started = false ∧
    (start (mkCamera b i res)).1._acquired = false ∧
    (start (mkCamera b i res)).1._ready = false ∧
    (start (mkCamera b i res)).1.scheduled = false ∧
    (start (mkCamera b i res)).1.readCalls = 0 ∧
    (start (mkCamera b i res)).1.onTextureCount = 0 ∧
    (start (mkCamera b i res)).1.onLoadCount = 1 := by
  simp [start, prepare, prepare_phase, configure, acquire, dev_open, schedule,
    unschedule, interval, mkCamera, hopen 0, hcfg 0]

/-- Claim C4 witness: the amended statement evaluated against the concrete
dead backend `bDead`. -/
theorem start_dead_backend_spec_witness :
    ((∀ n, bDead.openOk n = false) ∧ (∀ n, bDead.cfgOk n = false)) ∧
    ((start (mkCamera bDead DEFAULT_INDEX DEFAULT_RESOLUTION)).2 = none ∧
     (start (mkCamera bDead DEFAULT_INDEX DEFAULT_RESOLUTION)).1._started = false ∧
     (start (mkCamera bDead DEFAULT_INDEX DEFAULT_RESOLUTION)).1._acquired = false ∧
     (start (mkCamera bDead DEFAULT_INDEX DEFAULT_RESOLUTION)).1._ready = false ∧
     (start (mkCamera bDead DEFAULT_INDEX DEFAULT_RESOLUTION)).1.scheduled = false ∧
     (start (mkCamera bDead DEFAULT_INDEX DEFAULT_RESOLUTION)).1.readCalls = 0 ∧
     (start (mkCamera bDead DEFAULT_INDEX DEFAULT_RESOLUTION)).1.onTextureCount = 0 ∧
     (start (mkCamera bDead DEFAULT_INDEX DEFAULT_RESOLUTION)).1.onLoadCount = 1) :=
  ⟨⟨fun _ => rfl, fun _ => rfl⟩,
   start_dead_backend_spec bDead DEFAULT_INDEX DEFAULT_RESOLUTION
     (fun _ => rfl) (fun _ => rfl)⟩

/-!
Claim C5.
-/

/-- Claim C5 counterexample: a tick whose backend read raises still appends
the elapsed delta to the delta window (the append sits in the `finally`
clause of `update`), contradicting the claim that a failed tick appends no
delta. -/
theorem update_failed_read_appends_delta_cex :
    ({ mkCamera bReadFail DEFAULT_INDEX DEFAULT_RESOLUTION with
        _started := true } : Camera)._deltas = [] ∧
    (update { mkCamera bReadFail DEFAULT_INDEX DEFAULT_RESOLUTION with
        _started := true } 1)._deltas = [1] ∧
    (update { mkCamera bReadFail DEFAULT_INDEX DEFAULT_RESOLUTION with
        _started := true } 1).onTextureCount = 0 := by
  decide

/-- Claim C5 (amended): on a tick delivered while started, exactly one read
is attempted; the frame is forwarded to the sink (`on_texture`) exactly when
that read succeeds; but the delta is appended to the window on every started
tick — success or failure alike (it sits in a `finally` clause) — and the
retry budget of the OpenCV read logic is never reset: `read_frame` only ever
leaves it unchanged or decrements it. -/
theorem update_tick_spec (c : Camera) (d : ℚ) :
    (update c d)._deltas =
      (if c._started then dequeAppend c._deltas d real_fps_sample_size
       else c._deltas) ∧
    (update c d).readCalls = c.readCalls + (if c._started then 1 else 0) ∧
    (update c d).onTextureCount =
      c.onTextureCount +
        (if c._started ∧ (c.backend.readF c.readCalls).isSome then 1 else 0) ∧
    (∀ s : CVState, ∀ ok : Bool, (read_frame ok s).retry ≤ s.retry) := by
  refine ⟨?_, ?_, ?_, ?_⟩
  · by_cases hst : c._started = true
    · cases hr : c.backend.readF c.readCalls with
      | none => simp [update, dev_read, hst, hr]
      | some f => cases ht : c._texture <;>
          simp [update, dev_read, texture_get, hst, hr, ht]
    · simp [update, hst]
  · by_cases hst : c._started = true
    · cases hr : c.backend.readF c.readCalls with
      | none => simp [update, dev_read, hst, hr]
      | some f => cases ht : c._texture <;>
          simp [update, dev_read, texture_get, hst, hr, ht]
    · simp [update, hst]
  · by_cases hst : c._started = true
    · cases hr : c.backend.readF c.readCalls with
      | none => simp [update, dev_read, hst, hr]
      | some f => cases ht : c._texture <;>
          simp [update, dev_read, texture_get, hst, hr, ht]
    · simp [update, hst]
  · intro s ok
    simp only [read_frame, cv_stop]
    split_ifs <;> simp [Nat.sub_le]

/-!
Claim C6.
-/

set_option maxRecDepth 8000 in
/-- Claim C6 counterexample: after exactly `initial_retry` (= 60)
consecutive recoverable read failures while started, the OpenCV controller
is still started (its retry budget has just reached `0`); it has not yet
transitioned to Configured, contradicting the claim that `N` consecutive
failures (with `N` the initial budget) already stop the capture. -/
theorem retry_budget_cex :
    ((cv_tick false)^[initial_retry] cvInit).cv_started = true ∧
    ((cv_tick false)^[initial_retry] cvInit).retry = 0 := by
  decide

/-- Claim C6 (amended): each of the first `initial_retry` consecutive
recoverable read failures decrements the retry budget, the controller still
being started (and the device acquired) after `initial_retry` such
failures; the automatic stop happens on the following — the
`(initial_retry + 1)`-th — consecutive failure, which leaves the device
acquired and the capture stopped; once stopped, a tick attempts no further
read. -/
theorem retry_budget_spec :
    (∀ k, k ≤ initial_retry →
      ((cv_tick false)^[k] cvInit).retry = initial_retry - k ∧
      ((cv_tick false)^[k] cvInit).cv_started = true ∧
      ((cv_tick false)^[k] cvInit).cv_acquired = true ∧
      ((cv_tick false)^[k] cvInit).cv_reads = k) ∧
    ((cv_tick false)^[initial_retry + 1] cvInit).cv_started = false ∧
    ((cv_tick false)^[initial_retry + 1] cvInit).cv_acquired = true ∧
    ((cv_tick false)^[initial_retry + 1] cvInit).cv_reads = initial_retry + 1 ∧
    (∀ s : CVState, ∀ ok : Bool, s.cv_started = false → cv_tick ok s = s) := by
  have main : ∀ k, k ≤ initial_retry →
      ((cv_tick false)^[k] cvInit).retry = initial_retry - k ∧
      ((cv_tick false)^[k] cvInit).cv_started = true ∧
      ((cv_tick false)^[k] cvInit).cv_acquired = true ∧
      ((cv_tick false)^[k] cvInit).cv_reads = k := by
    intro k hk
    induction k with
    | zero => simp [cvInit]
    | succ n ih =>
      have hn : n ≤ initial_retry := Nat.le_of_succ_le hk
      obtain ⟨h1, h2, h3, h4⟩ := ih hn
      have hretry : ¬(initial_retry - n = 0) := by
        simp only [initial_retry] at hk ⊢
        omega
      rw [Function.iterate_succ_apply']
      simp [cv_tick, read_frame, cv_stop, h1, h2, h3, h4, hretry]
      simp only [initial_retry] at hk ⊢
      omega
  obtain ⟨h1, h2, h3, h4⟩ := main initial_retry (le_refl _)
  refine ⟨main, ?_, ?_, ?_, ?_⟩
  · rw [Function.iterate_succ_apply']
    simp [cv_tick, read_frame, cv_stop, h1, h2]
  · rw [Function.iterate_succ_apply']
    simp [cv_tick, read_frame, cv_stop, h1, h2, h3]
  · rw [Function.iterate_succ_apply']
    simp [cv_tick, read_frame, cv_stop, h1, h2, h4]
  · intro s ok h
    simp [cv_tick, h]

/-- Claim C6 witness: the amended statement evaluated at
`k = initial_retry`. -/
theorem retry_budget_spec_witness :
    initial_retry ≤ initial_retry ∧
    ((cv_tick false)^[initial_retry] cvInit).retry = initial_retry - initial_retry ∧
    ((cv_tick false)^[initial_retry] cvInit).cv_started = true :=
  ⟨le_refl _, (retry_budget_spec.1 initial_retry (le_refl _)).1,
   (retry_budget_spec.1 initial_retry (le_refl _)).2.1⟩

/-!
Claim C7.
-/

/-- Claim C7 (confirmed): whenever the configure step and the setup read
inside `prepare()` succeed, with the read returning a frame of dimensions
`(w, h)`, the stored resolution afterwards is `(w, h)` — the dimensions
actually read from the frame, regardless of the requested resolution — and
`prepare()` reports success. -/
theorem prepare_resolution_from_frame (c : Camera) (w h : Nat) (f : Frame)
    (hcfg : c.backend.cfgOk c.configureCalls = true)
    (hread : c.backend.readF c.readCalls = some f)
    (hwh : get_frame_resolution f = (w, h)) :
    (prepare c).1._resolution = (w, h) ∧ (prepare c).1._ready = true ∧
    (prepare c).2 = some true := by
  obtain ⟨p1, p2, p3, p4, p5⟩ := prepare_phase_fields c
  have hc2 : (configure (prepare_phase c)).2 = true := by
    refine (configure_spec _).1.mpr ?_
    rw [p1, p2]
    exact hcfg
  obtain ⟨g1, g2, g3, g4, g5, g6, g7, g8⟩ := configure_spec (prepare_phase c)
  simp [prepare, hc2, dev_read, g3, g4, p1, p3, hread, hwh]

/-- Claim C7 witness: against the always-succeeding backend `bOk`, which
returns 3-row frames of width 5, preparing a fresh controller that
requested 640×480 stores the resolution `(5, 3)` actually read from the
frame. -/
theorem prepare_resolution_from_frame_witness :
    ((mkCamera bOk DEFAULT_INDEX DEFAULT_RESOLUTION).backend.cfgOk
        (mkCamera bOk DEFAULT_INDEX DEFAULT_RESOLUTION).configureCalls = true ∧
     (mkCamera bOk DEFAULT_INDEX DEFAULT_RESOLUTION).backend.readF
        (mkCamera bOk DEFAULT_INDEX DEFAULT_RESOLUTION).readCalls = some okFrame ∧
     get_frame_resolution okFrame = (5, 3) ∧
     DEFAULT_RESOLUTION = (640, 480)) ∧
    ((prepare (mkCamera bOk DEFAULT_INDEX DEFAULT_RESOLUTION)).1._resolution = (5, 3) ∧
     (prepare (mkCamera bOk DEFAULT_INDEX DEFAULT_RESOLUTION)).1._ready = true ∧
     (prepare (mkCamera bOk DEFAULT_INDEX DEFAULT_RESOLUTION)).2 = some true) :=
  ⟨⟨rfl, rfl, by decide, rfl⟩,
   prepare_resolution_from_frame _ 5 3 okFrame rfl rfl (by decide)⟩

/-!
Claim C8.
-/

/-- Claim C8 (confirmed): for every value `v`, the `fps` setter stores the
fallback constant when `v ≤ 0` and `v` itself otherwise, so the stored fps
is positive after any setter call; no exception escapes the setter, and the
scheduling interval computed downstream is `1 /` the corrected value — the
invalid value is never used. -/
theorem fps_setter_fallback (c : Camera) (v : ℚ) :
    (fps_set c v).1._fps = (if v ≤ 0 then FALLBACK_FPS else v) ∧
    0 < (fps_set c v).1._fps ∧
    (fps_set c v).2 = true ∧
    interval (fps_set c v).1 = some (1 / (if v ≤ 0 then FALLBACK_FPS else v)) := by
  obtain ⟨s1, s2, _⟩ := fps_set_spec c v
  have hpos : 0 < (if v ≤ 0 then FALLBACK_FPS else v) := by
    by_cases hv : v ≤ 0
    · simp [hv, FALLBACK_FPS]
    · simp [hv]
      exact not_le.mp hv
  refine ⟨s2, by rw [s2]; exact hpos, s1, ?_⟩
  simp [interval, s2, ne_of_gt hpos]

/-!
Claim C9.
-/

/-- Claim C9 counterexample: calling `release()` twice in a row on a
controller in Released performs a backend `close()` call each time (the
close-call counter reaches 2), contradicting the claim that the second call
performs no additional backend calls. -/
theorem release_second_call_closes_again_cex :
    (release (mkCamera bOk DEFAULT_INDEX DEFAULT_RESOLUTION)).1._acquired = false ∧
    (release (mkCamera bOk DEFAULT_INDEX DEFAULT_RESOLUTION)).1.closeCalls = 1 ∧
    (release ((release (mkCamera bOk DEFAULT_INDEX DEFAULT_RESOLUTION)).1)).1.closeCalls
      = 2 := by
  decide

/-- Claim C9 (amended): `release()` from Released is idempotent on the
controller state — it stays Released (not acquired, not started, scheduler
untouched, delta window untouched) and the call reports success — but it is
not a backend no-op: every `release()` call, including from Released,
performs one more backend `close()` invocation. -/
theorem release_from_released_spec (c : Camera)
    (hacq : c._acquired = false) (hst : c._started = false) :
    (release c).1._acquired = false ∧
    (release c).2 = some true ∧
    (release c).1.closeCalls = c.closeCalls + 1 ∧
    (release c).1._started = false ∧
    (release c).1.scheduled = c.scheduled ∧
    (release c).1._deltas = c._deltas := by
  by_cases hc : c.backend.closeOk c.closeCalls = true <;>
    simp [release, stop, unschedule, dev_close, hst, hc, hacq]

/-- Claim C9 witness: the amended statement evaluated on a concrete
released controller (whose backend `close()` even raises). -/
theorem release_from_released_spec_witness :
    ((mkCamera bCloseFail DEFAULT_INDEX DEFAULT_RESOLUTION)._acquired = false ∧
     (mkCamera bCloseFail DEFAULT_INDEX DEFAULT_RESOLUTION)._started = false) ∧
    ((release (mkCamera bCloseFail DEFAULT_INDEX DEFAULT_RESOLUTION)).1._acquired = false ∧
     (release (mkCamera bCloseFail DEFAULT_INDEX DEFAULT_RESOLUTION)).2 = some true ∧
     (release (mkCamera bCloseFail DEFAULT_INDEX DEFAULT_RESOLUTION)).1.closeCalls =
       (mkCamera bCloseFail DEFAULT_INDEX DEFAULT_RESOLUTION).closeCalls + 1 ∧
     (release (mkCamera bCloseFail DEFAULT_INDEX DEFAULT_RESOLUTION)).1._started = false ∧
     (release (mkCamera bCloseFail DEFAULT_INDEX DEFAULT_RESOLUTION)).1.scheduled =
       (mkCamera bCloseFail DEFAULT_INDEX DEFAULT_RESOLUTION).scheduled ∧
     (release (mkCamera bCloseFail DEFAULT_INDEX DEFAULT_RESOLUTION)).1._deltas =
       (mkCamera bCloseFail DEFAULT_INDEX DEFAULT_RESOLUTION)._deltas) :=
  ⟨⟨rfl, rfl⟩, release_from_released_spec _ rfl rfl⟩

/-!
Claim C10.
-/

/-- Claim C10 counterexample: against a backend whose `configure()` raises,
`prepare()` fails yet still dispatches the `on_load` notification (it sits
in the `finally` clause), contradicting the claim that the device-ready
notification is never dispatched on a failed configuration attempt. -/
theorem on_load_on_failed_prepare_cex :
    (prepare (mkCamera bCfgFail DEFAULT_INDEX DEFAULT_RESOLUTION)).2 = some false ∧
    (prepare (mkCamera bCfgFail DEFAULT_INDEX DEFAULT_RESOLUTION)).1.onLoadCount = 1 := by
  decide

/-- Claim C10 (amended): the `on_load` notification is not a once-only
device-ready event: every `prepare()` call dispatches it exactly once,
whether configuration succeeded or failed, and the `texture` property
getter additionally dispatches it whenever the texture does not exist
yet. -/
theorem on_load_dispatch_spec (c : Camera) :
    (prepare c).1.onLoadCount = c.onLoadCount + 1 ∧
    (texture_get c).1.onLoadCount =
      c.onLoadCount + (if c._texture = none then 1 else 0) := by
  constructor
  · obtain ⟨p1, p2, p3, p4, p5⟩ := prepare_phase_fields c
    obtain ⟨g1, g2, g3, g4, g5, g6, g7, g8⟩ := configure_spec (prepare_phase c)
    by_cases hcf : (configure (prepare_phase c)).2 = true
    · cases hr : (configure (prepare_phase c)).1.backend.readF
          ((configure (prepare_phase c)).1.readCalls) with
      | none => simp [prepare, hcf, dev_read, hr, g5, p4]
      | some f => simp [prepare, hcf, dev_read, hr, g5, p4]
    · simp [prepare, hcf, g5, p4]
  · cases ht : c._texture <;> simp [texture_get, ht]

end KivyCam
